import Mathlib

/-!
Verification of the Emby-HA integration core (API gateway, snapshot
coordinator, and session views) against its natural-language specification.

The Python source is shallowly embedded: JSON values become an inductive
type `JVal`, each relevant Python function becomes a computable Lean
definition over explicit inputs (the network outcome of each HTTP call is
an input, since the real call is I/O), and exceptions become `Except` /
explicit error constructors.  Python `int` arithmetic is exact.  Python's
float arithmetic (the `/` true division of two ints and float
multiplication) is modelled by the function `fl`: rounding of the exact
rational value to 53 significant bits, to nearest, ties to even — the
IEEE-754 binary64 semantics CPython documents for these operations
(overflow to infinity and subnormal underflow, which would need tick
ratios beyond about 10^300, are outside the model).  `int(...)` applied
to a float is truncation toward zero (`pyTrunc`).
-/

namespace EmbyHA

/-- A parsed JSON value as held by the Python runtime.  Python `None`
(which is also what `json` parsing produces for JSON `null`) is `JVal.null`. -/
inductive JVal where
  | null : JVal
  | bool (b : Bool) : JVal
  | num (n : Int) : JVal
  | str (s : String) : JVal
  | arr (xs : List JVal) : JVal
  | obj (fields : List (String × JVal)) : JVal

/-- `api.py` error taxonomy: `EmbyAPIError` and its three subclasses.
`apiError` is the base-class ("unknown") case; each subclass instance is
also an `EmbyAPIError` for catching purposes, which we model by this flat
sum (the only handler in the repository that distinguishes them is the
one inside `_request` itself). -/
inductive EmbyError where
  | apiError : EmbyError
  | authError : EmbyError
  | connectionError : EmbyError
  | timeoutError : EmbyError
deriving DecidableEq, Repr

/-- What the network/runtime does during one `_request` call, from the
point of view of the `try` block of `EmbyAPIClient._request`:
either a response arrives (with an HTTP status and a parsed body), or an
`asyncio.TimeoutError` is raised, or an `aiohttp.ClientError` is raised,
or some other unexpected exception is raised. -/
inductive NetEvent where
  | ok (status : Nat) (body : JVal) : NetEvent
  | timeoutErr : NetEvent
  | clientErr : NetEvent
  | otherErr : NetEvent

/-- Embedding of `EmbyAPIClient._request` (src/api.py lines 109-146).
Status 401 raises `EmbyAuthError` (re-raised unchanged by the
`except EmbyAuthError: raise` handler); status 404 returns Python `None`;
any other status `>= 400` makes `response.raise_for_status()` raise an
`aiohttp.ClientError`, which the `except aiohttp.ClientError` handler
converts to `EmbyConnectionError`; otherwise the parsed body is returned.
`asyncio.TimeoutError` becomes `EmbyTimeoutError`, `aiohttp.ClientError`
becomes `EmbyConnectionError`, and any other exception becomes the base
`EmbyAPIError`. -/
def requestOutcome : NetEvent → Except EmbyError JVal
  | .ok status body =>
      if status = 401 then .error .authError
      else if status = 404 then .ok .null
      else if 400 ≤ status then .error .connectionError
      else .ok body
  | .timeoutErr => .error .timeoutError
  | .clientErr => .error .connectionError
  | .otherErr => .error .apiError

/-- The merged structure returned by `get_dashboard_overview`
(src/api.py lines 346-356): nine named sections, one per endpoint. -/
structure DashData where
  system_info : JVal
  endpoint_info : JVal
  items_counts : JVal
  library_folders : JVal
  sessions : JVal
  users : JVal
  activity_log : JVal
  scheduled_tasks : JVal
  devices : JVal

/-- One entry of the `results` list produced by
`asyncio.gather(..., return_exceptions=True)` in `get_dashboard_overview`:
either the value the sub-fetch returned (for a 404 this value is Python
`None`, i.e. `JVal.null`, per `_request`), or the exception it raised. -/
inductive FetchResult where
  | val (v : JVal) : FetchResult
  | exc (e : EmbyError) : FetchResult

/-- `results[i] if not isinstance(results[i], Exception) else fallback`. -/
def degrade (r : FetchResult) (fallback : JVal) : JVal :=
  match r with
  | .val v => v
  | .exc _ => fallback

/-- The sub-fetch result of one endpoint, as delivered by `_request`
through `asyncio.gather(..., return_exceptions=True)`: a raised
`EmbyError` is captured as `FetchResult.exc`, a returned value as
`FetchResult.val` (404 delivers `.val .null`). -/
def toFetchResult : Except EmbyError JVal → FetchResult
  | .ok v => .val v
  | .error e => .exc e

/-- Embedding of `EmbyAPIClient.get_dashboard_overview`
(src/api.py lines 297-356).  The nine concurrent sub-fetch outcomes are
the input `r` (indexed in the order of the `asyncio.gather` call);
each section takes the sub-fetch's returned value unless that sub-fetch
raised, in which case it takes the hard-coded fallback (`{}` for the
mapping-shaped endpoints, `[]` for sessions, users and scheduled_tasks). -/
def get_dashboard_overview (r : Fin 9 → FetchResult) : DashData where
  system_info := degrade (r 0) (.obj [])
  endpoint_info := degrade (r 1) (.obj [])
  items_counts := degrade (r 2) (.obj [])
  library_folders := degrade (r 3) (.obj [])
  sessions := degrade (r 4) (.arr [])
  users := degrade (r 5) (.arr [])
  activity_log := degrade (r 6) (.obj [])
  scheduled_tasks := degrade (r 7) (.arr [])
  devices := degrade (r 8) (.obj [])

/-- The nine sections in gather order, as a positional accessor. -/
def dashSection (d : DashData) : Fin 9 → JVal
  | 0 => d.system_info
  | 1 => d.endpoint_info
  | 2 => d.items_counts
  | 3 => d.library_folders
  | 4 => d.sessions
  | 5 => d.users
  | 6 => d.activity_log
  | 7 => d.scheduled_tasks
  | 8 => d.devices

/-- The hard-coded per-section fallback of `get_dashboard_overview`. -/
def fallbackAt : Fin 9 → JVal
  | 0 => .obj []
  | 1 => .obj []
  | 2 => .obj []
  | 3 => .obj []
  | 4 => .arr []
  | 5 => .arr []
  | 6 => .obj []
  | 7 => .arr []
  | 8 => .obj []

/-- Whether a JSON value is a mapping. -/
def JVal.isObj : JVal → Bool
  | .obj _ => true
  | _ => false

/-- Whether a JSON value is a sequence. -/
def JVal.isArr : JVal → Bool
  | .arr _ => true
  | _ => false

/-- The normal shape of each section: the shape of its fallback
(mapping for the six object-shaped endpoints, sequence for sessions,
users and scheduled_tasks). -/
def expectedShape (i : Fin 9) (v : JVal) : Bool :=
  if (fallbackAt i).isArr then v.isArr else v.isObj

/-- Whether a JSON value is Python `None` / JSON `null`. -/
def JVal.isNull : JVal → Bool
  | .null => true
  | _ => false

/-- The snapshot invariant stated by the spec: every section of a
composite-fetch result is non-null and has its normal shape (mapping
sections are mappings, sequence sections are sequences). -/
def typeStable (d : DashData) : Bool :=
  (List.finRange 9).all fun i =>
    !(dashSection d i).isNull && expectedShape i (dashSection d i)

theorem dashSection_get_dashboard_overview (r : Fin 9 → FetchResult) (i : Fin 9) :
    dashSection (get_dashboard_overview r) i = degrade (r i) (fallbackAt i) := by
  fin_cases i <;> rfl

/-! ## Snapshot coordinator (src/sensor.py) -/

/-- Embedding of `EmbyDataUpdateCoordinator._async_update_data`
(src/sensor.py lines 142-150): the composite fetch's outcome is passed
through on success; an `EmbyAPIError` (any of the four kinds) is caught
and re-raised as the host framework's `UpdateFailed` (modelled as the
`Except Unit` error). -/
def async_update_data (fetch : Except EmbyError DashData) : Except Unit DashData :=
  match fetch with
  | .ok d => .ok d
  | .error _ => .error ()

/-- The coordinator state visible to views: the stored snapshot
(`coordinator.data`, `none` before the first successful refresh) and the
last cycle's success flag (`coordinator.last_update_success`). -/
structure CoordinatorState where
  data : Option DashData
  lastUpdateSuccess : Bool

/-- Modelled from the spec: the refresh step of the host framework's
`DataUpdateCoordinator` base class (which `EmbyDataUpdateCoordinator`
subclasses) is not part of this repository; per the spec's Coordinator
state machine, a successful cycle stores the returned structure as the
current Snapshot and sets the success flag true, while a failed cycle
(`_async_update_data` raised) keeps the previous Snapshot unchanged and
sets the success flag false; either way the views are notified and no
exception propagates to them. -/
def coordinatorRefresh (st : CoordinatorState) (fetch : Except EmbyError DashData) :
    CoordinatorState :=
  match async_update_data fetch with
  | .ok d => { data := some d, lastUpdateSuccess := true }
  | .error _ => { data := st.data, lastUpdateSuccess := false }

/-! ## Entity availability (src/sensor.py, src/binary_sensor.py,
src/media_player.py) -/

/-- `EmbySensorBase.available` (src/sensor.py lines 168-171). -/
def sensorBaseAvailable (c : CoordinatorState) : Bool :=
  c.lastUpdateSuccess && c.data.isSome

/-- `EmbyDeviceSensorBase.available` (src/sensor.py lines 212-215). -/
def deviceSensorBaseAvailable (c : CoordinatorState) : Bool :=
  c.lastUpdateSuccess && c.data.isSome

/-- `EmbyBinarySensorBase.available` (src/binary_sensor.py lines 76-79). -/
def binarySensorBaseAvailable (c : CoordinatorState) : Bool :=
  c.lastUpdateSuccess && c.data.isSome

/-- `EmbyOnlineBinarySensor.available` (src/binary_sensor.py lines
119-122): overrides the base class and returns `True` unconditionally
("Always show online status"). -/
def onlineBinarySensorAvailable (_ : CoordinatorState) : Bool :=
  true

/-- `EmbyMediaPlayer.available` (src/media_player.py lines 151-166):
returns `coordinator.last_update_success` alone (the stored-data check
appears only inside the debug log message). -/
def mediaPlayerAvailable (c : CoordinatorState) : Bool :=
  c.lastUpdateSuccess

/-! ## Sessions and the device filter -/

/-- The `PlayState` sub-mapping of a session, restricted to the keys the
embedded code reads.  `none` in a field models an absent key. -/
structure PlayStateData where
  IsPaused : Option Bool
  PositionTicks : Option Nat

/-- The `NowPlayingItem` sub-mapping of a session, restricted to the keys
the embedded code reads. -/
structure NowPlayingData where
  Name : Option String
  RunTimeTicks : Option Nat

/-- A session record as the views read it, restricted to the keys the
embedded code accesses.  `none` models an absent key; a present
`NowPlayingItem` (`some`) models a non-empty "now playing" mapping. -/
structure Session where
  DeviceId : Option String
  InternalDeviceId : Option Nat
  UserName : Option String
  DeviceName : Option String
  Client : Option String
  NowPlayingItem : Option NowPlayingData
  PlayState : Option PlayStateData

/-- `str(session.get("InternalDeviceId", ""))`: the decimal string form of
the internal device id, or `""` when the key is absent (Python's
`str("")`). -/
def strOfInternal (s : Session) : String :=
  match s.InternalDeviceId with
  | none => ""
  | some n => toString n

/-- Embedding of `_should_include_session` (src/sensor.py lines 639-651
and its verbatim copies in the other view classes).  A py-falsy filter
(`None` or `""`) or the literal `"all"` matches everything; otherwise the
session matches iff its `DeviceId` equals the filter or the string form
of its `InternalDeviceId` equals the filter. -/
def shouldIncludeSession (deviceFilter : Option String) (s : Session) : Bool :=
  match deviceFilter with
  | none => true
  | some f =>
      if f = "" || f = "all" then true
      else (s.DeviceId == some f) || (strOfInternal s == f)

/-- The inline session match of `EmbyMediaPlayer._update_session_data`
(src/media_player.py lines 124-128): `DeviceId` equality or
`InternalDeviceId` string equality, with no wildcard escape. -/
def mediaPlayerSessionMatches (deviceId : String) (s : Session) : Bool :=
  (s.DeviceId == some deviceId) || (strOfInternal s == deviceId)

/-! ## Media player entity state (src/media_player.py) -/

/-- The mutable per-entity state of `EmbyMediaPlayer`: the three cached
identity fields and the currently matched session (if any). -/
structure PlayerCache where
  cachedUser : String
  cachedDevice : String
  cachedClient : String
  sessionData : Option Session

/-- The cache as `EmbyMediaPlayer.__init__` sets it before the first
`_update_session_data` call (src/media_player.py lines 94-98):
the configured user name, the configured device name, and `"Unknown"`. -/
def initialCache (userName deviceName : String) : PlayerCache :=
  { cachedUser := userName
    cachedDevice := deviceName
    cachedClient := "Unknown"
    sessionData := none }

/-- The `for session in sessions` loop of `_update_session_data`: the
first session matching this device, if any. -/
def findMatchingSession (deviceId : String) : List Session → Option Session
  | [] => none
  | s :: rest =>
      if mediaPlayerSessionMatches deviceId s then some s
      else findMatchingSession deviceId rest

/-- Embedding of `EmbyMediaPlayer._update_session_data`
(src/media_player.py lines 108-143).  `data` is
`coordinator.data.get("sessions", [])` behind the `not
self.coordinator.data` guard (`none` when the coordinator holds no data).
With no matching session only `_session_data` is reset; the cached fields
are overwritten only from a matching session's `UserName`, `DeviceName`
and `Client` keys, each defaulting to the previous cached value. -/
def updateSessionData (deviceId : String) (data : Option (List Session))
    (st : PlayerCache) : PlayerCache :=
  match data with
  | none => { st with sessionData := none }
  | some sessions =>
      match findMatchingSession deviceId sessions with
      | none => { st with sessionData := none }
      | some s =>
          { cachedUser := s.UserName.getD st.cachedUser
            cachedDevice := s.DeviceName.getD st.cachedDevice
            cachedClient := s.Client.getD st.cachedClient
            sessionData := some s }

/-- Python `a or b` on strings: `b` when `a` is falsy (empty). -/
def pyOrStr (a b : String) : String :=
  if a = "" then b else a

/-- Embedding of `EmbyMediaPlayer.name` (src/media_player.py lines
168-179): cached fields (falling back to the configured names when empty),
overridden by the live session's `UserName`/`DeviceName` when a session is
present. -/
def playerName (userName deviceName : String) (st : PlayerCache) : String :=
  let user := pyOrStr st.cachedUser userName
  let device := pyOrStr st.cachedDevice deviceName
  match st.sessionData with
  | none => "Emby " ++ user ++ " - " ++ device
  | some s => "Emby " ++ s.UserName.getD user ++ " - " ++ s.DeviceName.getD device

/-- The externally visible playback states of the media player entity. -/
inductive PlayerState where
  | idle : PlayerState
  | paused : PlayerState
  | playing : PlayerState
deriving DecidableEq, Repr

/-- Embedding of `EmbyMediaPlayer.state` (src/media_player.py lines
181-198): idle without a session or without a now-playing item, else
paused/playing per `PlayState.IsPaused` (defaulting to `False`). -/
def mediaPlayerState (st : PlayerCache) : PlayerState :=
  match st.sessionData with
  | none => .idle
  | some s =>
      match s.NowPlayingItem with
      | none => .idle
      | some _ =>
          if ((s.PlayState.bind (fun p => p.IsPaused)).getD false) then .paused
          else .playing

/-! ## Tick arithmetic (src/sensor.py, src/media_player.py)

The playback code computes `int(a / b)` and `int(x * 100)` in CPython,
where `/` on two ints and `*` on floats return the IEEE-754 binary64
double nearest to the exact result (ties to even).  The embedding makes
that rounding explicit: `fl` rounds an exact rational to 53 significant
bits (round to nearest, ties to even), and the tick functions below
apply `fl` exactly where CPython rounds. -/

/-- Python `int(...)` applied to a (rational) number: truncation toward
zero. -/
def pyTrunc (q : ℚ) : ℤ :=
  if 0 ≤ q then ⌊q⌋ else ⌈q⌉

/-- `2 ^ e` in `ℚ` for an integer exponent, written over `Nat.pow` so
that both directions stay elementary. -/
def pow2z : ℤ → ℚ
  | .ofNat n => ((2 ^ n : ℕ) : ℚ)
  | .negSucc n => 1 / ((2 ^ (n + 1) : ℕ) : ℚ)

/-- The binary exponent of a positive rational: the unique `e` with
`2 ^ e ≤ q < 2 ^ (e + 1)`, computed from the bit lengths of the
numerator and denominator. -/
def qexp (q : ℚ) : ℤ :=
  if pow2z ((Nat.log2 q.num.toNat : ℤ) - (Nat.log2 q.den : ℤ)) ≤ q
  then (Nat.log2 q.num.toNat : ℤ) - (Nat.log2 q.den : ℤ)
  else (Nat.log2 q.num.toNat : ℤ) - (Nat.log2 q.den : ℤ) - 1

/-- Round a rational to the nearest integer, ties to even. -/
def rnInt (m : ℚ) : ℤ :=
  if m - (⌊m⌋ : ℚ) < 1 / 2 then ⌊m⌋
  else if 1 / 2 < m - (⌊m⌋ : ℚ) then ⌊m⌋ + 1
  else if ⌊m⌋ % 2 = 0 then ⌊m⌋ else ⌊m⌋ + 1

/-- Round `q` to the binary64 grid of exponent `e` (spacing
`2 ^ (e - 52)`): round to nearest, ties to even, exactly the IEEE-754
rounding rule for a value whose binade has exponent `e`. -/
def roundAtExp (q : ℚ) (e : ℤ) : ℚ :=
  (rnInt (q * pow2z (52 - e)) : ℚ) * pow2z (e - 52)

/-- Round an exact rational to the nearest IEEE-754 binary64 value
(53 significant bits, ties to even): the result of every CPython float
operation whose exact value is `q`, for `q` in the normal finite range
(no overflow or subnormal underflow, which would need magnitudes beyond
roughly `2 ^ 1024` or below `2 ^ (-1022)`). -/
def fl (q : ℚ) : ℚ :=
  if q = 0 then 0
  else if q < 0 then - roundAtExp (-q) (qexp (-q))
  else roundAtExp q (qexp q)

/-- The per-session progress computation of
`EmbyProgressPercentSensor.native_value` (src/sensor.py lines 1096-1103)
and of the now-playing attributes (src/sensor.py lines 707-712):
`int((position_ticks / runtime_ticks) * 100)` behind the
`if runtime_ticks > 0` guard, `0` otherwise; the int/int true division
and the float multiplication by 100 each round to nearest binary64. -/
def progressPercent (positionTicks runtimeTicks : Nat) : ℤ :=
  if 0 < runtimeTicks then
    pyTrunc (fl (fl ((positionTicks : ℚ) / (runtimeTicks : ℚ)) * 100))
  else 0

/-- The tick-to-seconds conversion `int(ticks / 10000000)` used by
`EmbyMediaPlayer.media_duration` / `media_position` (src/media_player.py
lines 260-284) and throughout the playback sensors; the int/int true
division rounds to nearest binary64 before `int` truncates. -/
def ticksToSeconds (t : Nat) : ℤ :=
  pyTrunc (fl ((t : ℚ) / 10000000))

/-- The remaining-time computation of
`EmbyPlaybackRemainingSensor.native_value` (src/sensor.py lines
1237-1239): `int((runtime_ticks - position_ticks) / 10000000)` behind the
`runtime_ticks > 0 and position_ticks > 0` guard; the int subtraction is
exact, the int/int true division rounds to nearest binary64. -/
def remainingSeconds (positionTicks runtimeTicks : Nat) : ℤ :=
  pyTrunc (fl (((runtimeTicks : ℚ) - (positionTicks : ℚ)) / 10000000))

/-! ## Connectivity probe (src/api.py) -/

/-- Python's `k in v` on a JSON value: key test on a mapping, membership
test on a sequence (only string elements can compare equal to `k`),
substring test on a string; any other operand raises `TypeError`
(modelled as the `Except Unit` error). -/
def pyMember (k : String) : JVal → Except Unit Bool
  | .obj fs => .ok (fs.any (fun f => f.1 == k))
  | .arr xs => .ok (xs.any (fun x => match x with | .str s => s == k | _ => false))
  | .str s => .ok (decide (List.IsInfix k.data s.data))
  | _ => .error ()

/-- Embedding of `EmbyAPIClient.test_connection` (src/api.py lines
358-369) composed with `get_system_info_public`/`_request`: evaluates
`info is not None and "ServerName" in info` on the request's result; any
exception raised anywhere inside the `try` block (including every
`EmbyError` from `_request` and a `TypeError` from the membership test)
is caught by `except Exception` and yields `False`. -/
def test_connection (e : NetEvent) : Bool :=
  match requestOutcome e with
  | .error _ => false
  | .ok info =>
      match info with
      | .null => false
      | v =>
          match pyMember "ServerName" v with
          | .ok b => b
          | .error _ => false

/-! ## Helper lemmas -/

theorem expectedShape_fallbackAt (i : Fin 9) : expectedShape i (fallbackAt i) = true := by
  fin_cases i <;> rfl

theorem isNull_fallbackAt (i : Fin 9) : (fallbackAt i).isNull = false := by
  fin_cases i <;> rfl

theorem isNull_eq_false_of_expectedShape {i : Fin 9} {v : JVal}
    (h : expectedShape i v = true) : v.isNull = false := by
  cases v <;> simp [expectedShape, JVal.isArr, JVal.isObj, JVal.isNull, ite_self] at h ⊢

theorem findMatchingSession_eq_none {dId : String} {l : List Session}
    (h : ∀ s ∈ l, mediaPlayerSessionMatches dId s = false) :
    findMatchingSession dId l = none := by
  induction l with
  | nil => rfl
  | cons s rest ih =>
      have hs := h s (List.mem_cons_self s rest)
      simp only [findMatchingSession, hs, if_neg]
      exact ih fun t ht => h t (List.mem_cons_of_mem s ht)

theorem findMatchingSession_matches {dId : String} {l : List Session} {s : Session}
    (h : findMatchingSession dId l = some s) :
    mediaPlayerSessionMatches dId s = true := by
  induction l with
  | nil => cases h
  | cons t rest ih =>
      by_cases ht : mediaPlayerSessionMatches dId t = true
      · simp only [findMatchingSession, ht, if_pos] at h
        cases h
        exact ht
      · simp only [findMatchingSession, ht, if_neg] at h
        exact ih h

/-! ## Float-model lemmas -/

theorem pow2z_natCast (n : ℕ) : pow2z (n : ℤ) = ((2 ^ n : ℕ) : ℚ) := rfl

theorem pow2z_eq_zpow (e : ℤ) : pow2z e = (2 : ℚ) ^ e := by
  cases e with
  | ofNat n =>
      show ((2 ^ n : ℕ) : ℚ) = (2 : ℚ) ^ (Int.ofNat n)
      rw [Int.ofNat_eq_natCast, zpow_natCast]
      push_cast
      ring
  | negSucc n =>
      show 1 / ((2 ^ (n + 1) : ℕ) : ℚ) = (2 : ℚ) ^ (Int.negSucc n)
      rw [zpow_negSucc, one_div]
      congr 1
      push_cast
      ring

theorem pow2z_zero : pow2z 0 = 1 := rfl

theorem pow2z_pos (e : ℤ) : 0 < pow2z e := by
  rw [pow2z_eq_zpow]
  positivity

theorem pow2z_add (a b : ℤ) : pow2z (a + b) = pow2z a * pow2z b := by
  rw [pow2z_eq_zpow, pow2z_eq_zpow, pow2z_eq_zpow, zpow_add₀ (two_ne_zero)]

theorem pow2z_le_pow2z {a b : ℤ} (h : a ≤ b) : pow2z a ≤ pow2z b := by
  rw [pow2z_eq_zpow, pow2z_eq_zpow]
  exact zpow_le_zpow_right₀ one_le_two h

theorem pow2z_lt_iff {a b : ℤ} : pow2z a < pow2z b ↔ a < b := by
  rw [pow2z_eq_zpow, pow2z_eq_zpow]
  exact zpow_lt_iff_lt one_lt_two

theorem pow2z_mul_pow2z_neg (a : ℤ) : pow2z a * pow2z (-a) = 1 := by
  rw [← pow2z_add]
  simp [pow2z_zero]

theorem qexp_correct {q : ℚ} (hq : 0 < q) :
    pow2z (qexp q) ≤ q ∧ q < pow2z (qexp q + 1) := by
  have hnum : 0 < q.num := Rat.num_pos.mpr hq
  have hnum0 : q.num.toNat ≠ 0 := by omega
  have hden0 : q.den ≠ 0 := q.den_nz
  have hdenQ : (0 : ℚ) < (q.den : ℚ) := by
    have := q.pos
    exact_mod_cast this
  have hA1 : 2 ^ Nat.log2 q.num.toNat ≤ q.num.toNat := Nat.log2_self_le hnum0
  have hA2 : q.num.toNat < 2 ^ (Nat.log2 q.num.toNat + 1) :=
    (Nat.log2_lt hnum0).mp (Nat.lt_succ_self _)
  have hB1 : 2 ^ Nat.log2 q.den ≤ q.den := Nat.log2_self_le hden0
  have hB2 : q.den < 2 ^ (Nat.log2 q.den + 1) := (Nat.log2_lt hden0).mp (Nat.lt_succ_self _)
  have hcast : ((q.num.toNat : ℕ) : ℚ) = (q.num : ℚ) := by
    exact_mod_cast congrArg (fun z : ℤ => (z : ℚ)) (Int.toNat_of_nonneg hnum.le)
  have hq_eq : q = (q.num : ℚ) / (q.den : ℚ) := (Rat.num_div_den q).symm
  have key1 : pow2z ((Nat.log2 q.num.toNat : ℤ) - (Nat.log2 q.den : ℤ) - 1) ≤ q := by
    conv_rhs => rw [hq_eq]
    rw [le_div_iff hdenQ]
    calc pow2z ((Nat.log2 q.num.toNat : ℤ) - (Nat.log2 q.den : ℤ) - 1) * (q.den : ℚ)
        ≤ pow2z ((Nat.log2 q.num.toNat : ℤ) - (Nat.log2 q.den : ℤ) - 1)
            * ((2 ^ (Nat.log2 q.den + 1) : ℕ) : ℚ) := by
          refine mul_le_mul_of_nonneg_left ?_ (pow2z_pos _).le
          exact_mod_cast hB2.le
      _ = pow2z (Nat.log2 q.num.toNat : ℤ) := by
          rw [← pow2z_natCast (Nat.log2 q.den + 1), ← pow2z_add]
          congr 1
          push_cast
          ring
      _ = ((2 ^ Nat.log2 q.num.toNat : ℕ) : ℚ) := pow2z_natCast _
      _ ≤ (q.num : ℚ) := by
          rw [← hcast]
          exact_mod_cast hA1
  have key2 : q < pow2z ((Nat.log2 q.num.toNat : ℤ) - (Nat.log2 q.den : ℤ) + 1) := by
    conv_lhs => rw [hq_eq]
    rw [div_lt_iff hdenQ]
    calc (q.num : ℚ) < ((2 ^ (Nat.log2 q.num.toNat + 1) : ℕ) : ℚ) := by
          rw [← hcast]
          exact_mod_cast hA2
      _ = pow2z ((Nat.log2 q.num.toNat : ℤ) - (Nat.log2 q.den : ℤ) + 1)
            * ((2 ^ Nat.log2 q.den : ℕ) : ℚ) := by
          rw [← pow2z_natCast (Nat.log2 q.den), ← pow2z_add, ← pow2z_natCast]
          congr 1
          push_cast
          ring
      _ ≤ pow2z ((Nat.log2 q.num.toNat : ℤ) - (Nat.log2 q.den : ℤ) + 1) * (q.den : ℚ) := by
          refine mul_le_mul_of_nonneg_left ?_ (pow2z_pos _).le
          exact_mod_cast hB1
  rw [qexp]
  split
  next h => exact ⟨h, key2⟩
  next h =>
    refine ⟨key1, ?_⟩
    have := not_le.mp h
    simpa using this

theorem qexp_unique {q : ℚ} (hq : 0 < q) {e : ℤ}
    (h1 : pow2z e ≤ q) (h2 : q < pow2z (e + 1)) : qexp q = e := by
  obtain ⟨hl, hu⟩ := qexp_correct hq
  have a1 : qexp q < e + 1 := pow2z_lt_iff.mp (lt_of_le_of_lt hl h2)
  have a2 : e < qexp q + 1 := pow2z_lt_iff.mp (lt_of_le_of_lt h1 hu)
  omega

theorem abs_rnInt_sub_le (m : ℚ) : |(rnInt m : ℚ) - m| ≤ 1 / 2 := by
  have h1 : ((⌊m⌋ : ℤ) : ℚ) ≤ m := Int.floor_le m
  have h2 : m < ⌊m⌋ + 1 := Int.lt_floor_add_one m
  rw [rnInt]
  split
  next hc => rw [abs_sub_comm, abs_of_nonneg (by linarith)]; linarith
  next hc =>
    split
    next hc2 => push_cast; rw [abs_of_nonneg (by linarith)]; linarith
    next hc2 =>
      have heq : m - (⌊m⌋ : ℚ) = 1 / 2 := le_antisymm (not_lt.mp hc2) (not_lt.mp hc)
      split
      next => rw [abs_sub_comm, abs_of_nonneg (by linarith)]; linarith
      next => push_cast; rw [abs_of_nonneg (by linarith)]; linarith

theorem rnInt_intCast (n : ℤ) : rnInt (n : ℚ) = n := by
  rw [rnInt, Int.floor_intCast]
  rw [if_pos (by norm_num)]

theorem rnInt_eq_down {m : ℚ} {n : ℤ} (h1 : (n : ℚ) ≤ m) (h2 : m < (n : ℚ) + 1 / 2) :
    rnInt m = n := by
  have hfl : ⌊m⌋ = n := Int.floor_eq_iff.mpr ⟨h1, by push_cast; linarith⟩
  rw [rnInt, hfl]
  rw [if_pos (by push_cast; linarith)]

theorem rnInt_eq_up {m : ℚ} {n : ℤ} (h1 : (n : ℚ) + 1 / 2 < m) (h2 : m < (n : ℚ) + 1) :
    rnInt m = n + 1 := by
  have hfl : ⌊m⌋ = n := Int.floor_eq_iff.mpr ⟨by push_cast; linarith, by push_cast; linarith⟩
  rw [rnInt, hfl]
  rw [if_neg (by push_cast; linarith), if_pos (by push_cast; linarith)]

theorem abs_roundAtExp_sub_le (q : ℚ) (e : ℤ) : |roundAtExp q e - q| ≤ pow2z (e - 53) := by
  have hs : (0 : ℚ) < pow2z (e - 52) := pow2z_pos _
  have hinv : pow2z (52 - e) * pow2z (e - 52) = 1 := by
    rw [← pow2z_add]
    have h0 : 52 - e + (e - 52) = 0 := by ring
    rw [h0, pow2z_zero]
  have hsplit : roundAtExp q e - q =
      ((rnInt (q * pow2z (52 - e)) : ℚ) - q * pow2z (52 - e)) * pow2z (e - 52) := by
    rw [roundAtExp, sub_mul]
    congr 1
    rw [mul_assoc, hinv, mul_one]
  rw [hsplit, abs_mul, abs_of_pos hs]
  calc |(rnInt (q * pow2z (52 - e)) : ℚ) - q * pow2z (52 - e)| * pow2z (e - 52)
      ≤ (1 / 2) * pow2z (e - 52) :=
        mul_le_mul_of_nonneg_right (abs_rnInt_sub_le _) hs.le
    _ = pow2z (e - 53) := by
        have h1 : pow2z (e - 52) = pow2z (e - 53) * pow2z 1 := by
          rw [← pow2z_add]
          congr 1
          ring
        have h2 : pow2z 1 = 2 := rfl
        rw [h1, h2]
        ring

theorem roundAtExp_exact (n0 : ℤ) {q : ℚ} {e : ℤ} (h : q * pow2z (52 - e) = (n0 : ℚ)) :
    roundAtExp q e = q := by
  rw [roundAtExp, h, rnInt_intCast, ← h, mul_assoc]
  have hinv : pow2z (52 - e) * pow2z (e - 52) = 1 := by
    rw [← pow2z_add]
    have h0 : 52 - e + (e - 52) = 0 := by ring
    rw [h0, pow2z_zero]
  rw [hinv, mul_one]

theorem fl_zero : fl 0 = 0 := by
  rw [fl, if_pos rfl]

theorem fl_pos_eq {q : ℚ} (hq : 0 < q) : fl q = roundAtExp q (qexp q) := by
  rw [fl, if_neg hq.ne', if_neg (not_lt.mpr hq.le)]

theorem abs_fl_sub_le_rel {q : ℚ} (hq : 0 < q) : |fl q - q| ≤ q * pow2z (-53) := by
  rw [fl_pos_eq hq]
  refine le_trans (abs_roundAtExp_sub_le q _) ?_
  have h0 : qexp q - 53 = qexp q + (-53) := by ring
  rw [h0, pow2z_add]
  exact mul_le_mul_of_nonneg_right (qexp_correct hq).1 (pow2z_pos _).le

theorem abs_fl_sub_le_of_lt {q : ℚ} (hq : 0 < q) {c : ℤ} (hc : q < pow2z c) :
    |fl q - q| ≤ pow2z (c - 54) := by
  rw [fl_pos_eq hq]
  refine le_trans (abs_roundAtExp_sub_le q _) (pow2z_le_pow2z ?_)
  have h1 : qexp q < c := pow2z_lt_iff.mp (lt_of_le_of_lt (qexp_correct hq).1 hc)
  omega

theorem fl_nonneg {q : ℚ} (hq : 0 ≤ q) : 0 ≤ fl q := by
  rcases eq_or_lt_of_le hq with h | h
  · rw [← h, fl_zero]
  · have hrel := (abs_le.mp (abs_fl_sub_le_rel h)).1
    have hu : pow2z (-53) ≤ 1 := by
      calc pow2z (-53) ≤ pow2z 0 := pow2z_le_pow2z (by norm_num)
        _ = 1 := pow2z_zero
    nlinarith

theorem fl_intCast (n0 : ℤ) (h0 : 0 < n0) (h52 : qexp ((n0 : ℤ) : ℚ) ≤ 52) :
    fl ((n0 : ℤ) : ℚ) = ((n0 : ℤ) : ℚ) := by
  have hq : (0 : ℚ) < ((n0 : ℤ) : ℚ) := by exact_mod_cast h0
  rw [fl_pos_eq hq]
  obtain ⟨k, hk⟩ : ∃ k : ℕ, (k : ℤ) = 52 - qexp ((n0 : ℤ) : ℚ) :=
    ⟨(52 - qexp ((n0 : ℤ) : ℚ)).toNat, Int.toNat_of_nonneg (by omega)⟩
  apply roundAtExp_exact (n0 * 2 ^ k)
  rw [← hk, pow2z_natCast]
  push_cast
  ring

theorem fl_natCast {n : ℕ} (h0 : 0 < n) (h52 : qexp ((n : ℕ) : ℚ) ≤ 52) :
    fl ((n : ℕ) : ℚ) = ((n : ℕ) : ℚ) := by
  have h1 : (((n : ℤ) : ℤ) : ℚ) = ((n : ℕ) : ℚ) := by push_cast; ring
  have := fl_intCast (n : ℤ) (by exact_mod_cast h0) (by rw [h1]; exact h52)
  rw [h1] at this
  exact this

theorem pyTrunc_eq_floor {q : ℚ} (h : 0 ≤ q) : pyTrunc q = ⌊q⌋ := if_pos h

theorem pyTrunc_fl_div_ticks {s : ℕ} (hle : s ≤ 2 ^ 53) :
    pyTrunc (fl ((s : ℚ) / 10000000)) = ((s / 10000000 : ℕ) : ℤ) := by
  rcases Nat.eq_zero_or_pos s with h0 | hs
  · subst h0
    norm_num [fl_zero, pyTrunc]
  · have hq : (0 : ℚ) < (s : ℚ) / 10000000 := by
      have : (0 : ℚ) < (s : ℚ) := by exact_mod_cast hs
      positivity
    have hqlt : (s : ℚ) / 10000000 < pow2z 30 := by
      rw [pow2z_eq_zpow, div_lt_iff (by norm_num : (0 : ℚ) < 10000000)]
      have hsle : (s : ℚ) ≤ ((2 ^ 53 : ℕ) : ℚ) := by exact_mod_cast hle
      norm_num at hsle ⊢
      linarith
    have herr := abs_fl_sub_le_of_lt hq hqlt
    have hval : pow2z (30 - 54) = 1 / 16777216 := by
      rw [pow2z_eq_zpow]
      norm_num
    rw [hval] at herr
    obtain ⟨he1, he2⟩ := abs_le.mp herr
    have hz0 : 0 ≤ fl ((s : ℚ) / 10000000) := fl_nonneg hq.le
    rw [pyTrunc_eq_floor hz0]
    have hsplit := Nat.div_add_mod s 10000000
    have hq_eq : (s : ℚ) / 10000000 =
        ((s / 10000000 : ℕ) : ℚ) + ((s % 10000000 : ℕ) : ℚ) / 10000000 := by
      have hcast : (s : ℚ) = 10000000 * ((s / 10000000 : ℕ) : ℚ) + ((s % 10000000 : ℕ) : ℚ) := by
        exact_mod_cast congrArg (fun k : ℕ => (k : ℚ)) hsplit.symm
      rw [hcast]
      ring
    rcases Nat.eq_zero_or_pos (s % 10000000) with hmd | hmd
    · have hkpos : 0 < s / 10000000 := by omega
      have hqk : (s : ℚ) / 10000000 = ((s / 10000000 : ℕ) : ℚ) := by
        rw [hq_eq, hmd]
        push_cast
        ring
      have hklt : ((s / 10000000 : ℕ) : ℚ) < pow2z 30 := by
        rw [← hqk]
        exact hqlt
      have hk52 : qexp ((s / 10000000 : ℕ) : ℚ) ≤ 52 := by
        have hkpos2 : (0 : ℚ) < ((s / 10000000 : ℕ) : ℚ) := by exact_mod_cast hkpos
        have := pow2z_lt_iff.mp (lt_of_le_of_lt (qexp_correct hkpos2).1 hklt)
        omega
      rw [hqk, fl_natCast hkpos hk52, Int.floor_natCast]
    · have hmd9 : (s % 10000000 : ℕ) ≤ 9999999 := by omega
      have hfrac_low : (1 : ℚ) / 10000000 ≤ ((s % 10000000 : ℕ) : ℚ) / 10000000 := by
        have : (1 : ℚ) ≤ ((s % 10000000 : ℕ) : ℚ) := by exact_mod_cast hmd
        linarith
      have hfrac_high : ((s % 10000000 : ℕ) : ℚ) / 10000000 ≤ 1 - 1 / 10000000 := by
        have : ((s % 10000000 : ℕ) : ℚ) ≤ 9999999 := by exact_mod_cast hmd9
        linarith
      have hflfloor : ⌊fl ((s : ℚ) / 10000000)⌋ = ((s / 10000000 : ℕ) : ℤ) := by
        apply Int.floor_eq_iff.mpr
        constructor
        · rw [Int.cast_natCast]
          linarith [he1, hq_eq, hfrac_low]
        · rw [Int.cast_natCast]
          linarith [he2, hq_eq, hfrac_high]
      rw [hflfloor]

/-! ## Claim theorems -/

/-- C1 counterexample: the claim quantifies over sub-fetch outcomes
including the 404 "not found" result, but `_request` turns a 404 into a
returned `None`, which `isinstance(results[i], Exception)` does not
catch: with the system-info sub-fetch hitting a 404 (and every other
sub-fetch succeeding with its normal shape), the `system_info` section of
the composite result is `None`/null, not the typed empty fallback. -/
theorem C1_counterexample :
    typeStable (get_dashboard_overview
      (fun i => if i = 0 then .val .null else .val (fallbackAt i))) = false ∧
    (get_dashboard_overview
      (fun i => if i = 0 then .val .null else .val (fallbackAt i))).system_info
      = JVal.null := by
  exact ⟨rfl, rfl⟩

/-- C1 (amended): for every combination of sub-fetch outcomes in which
each successful sub-fetch returns a value of its section's normal shape
and the failures are any of the four raised failure kinds (no 404
"not found" result), all nine sections of the composite result are
present, non-null and type-stable (mapping sections are mappings,
sequence sections are sequences), and every failed sub-fetch's section
equals its typed empty fallback.  A sub-fetch that yields the 404 result
instead leaves its section as `None`/null (see the counterexample). -/
theorem C1_sections_present_and_typed (r : Fin 9 → FetchResult)
    (h : ∀ i v, r i = .val v → expectedShape i v = true) :
    typeStable (get_dashboard_overview r) = true ∧
    ∀ i e, r i = .exc e →
      dashSection (get_dashboard_overview r) i = fallbackAt i := by
  have key : ∀ i : Fin 9,
      (!(dashSection (get_dashboard_overview r) i).isNull
        && expectedShape i (dashSection (get_dashboard_overview r) i)) = true := by
    intro i
    rw [dashSection_get_dashboard_overview]
    cases hri : r i with
    | val v =>
        have hs := h i v hri
        simp [degrade, hs, isNull_eq_false_of_expectedShape hs]
    | exc e =>
        simp [degrade, expectedShape_fallbackAt i, isNull_fallbackAt i]
  refine ⟨?_, ?_⟩
  · simp only [typeStable, List.all_eq_true]
    exact fun i _ => key i
  · intro i e hre
    rw [dashSection_get_dashboard_overview, hre]
    rfl

/-- C1 witness: all nine sub-fetches raise a timeout; every section is
its typed empty fallback and the snapshot is type-stable. -/
theorem C1_witness :
    typeStable (get_dashboard_overview (fun _ => .exc .timeoutError)) = true ∧
    ∀ i e, (fun _ => FetchResult.exc EmbyError.timeoutError) i = .exc e →
      dashSection (get_dashboard_overview (fun _ => .exc .timeoutError)) i
        = fallbackAt i :=
  C1_sections_present_and_typed (fun _ => .exc .timeoutError)
    (by intro i v hv; cases hv)

/-- C2: if exactly one of the nine sub-fetches raises (any failure kind)
and the other eight succeed, the composite result keeps the eight
successful sections at exactly their fetched values and replaces only the
failed section by its typed empty fallback; the captured exception never
escapes `get_dashboard_overview` (a total function of the outcomes). -/
theorem C2_single_failure_isolated (k : Fin 9) (e : EmbyError) (v : Fin 9 → JVal) :
    (∀ j : Fin 9, j ≠ k →
      dashSection (get_dashboard_overview
        (fun i => if i = k then .exc e else .val (v i))) j = v j) ∧
    dashSection (get_dashboard_overview
      (fun i => if i = k then .exc e else .val (v i))) k = fallbackAt k := by
  constructor
  · intro j hj
    rw [dashSection_get_dashboard_overview]
    simp [hj, degrade]
  · rw [dashSection_get_dashboard_overview]
    simp [degrade]

/-- C2 witness (the spec's scenario A): the sessions sub-fetch times out,
all others succeed; `sessions` falls back to `[]` while, e.g., the
system-info section keeps its fetched value. -/
theorem C2_witness :
    dashSection (get_dashboard_overview
      (fun i => if i = (4 : Fin 9) then .exc .timeoutError
        else .val (JVal.obj [("Id", .str "abc")]))) 0
      = JVal.obj [("Id", .str "abc")] ∧
    dashSection (get_dashboard_overview
      (fun i => if i = (4 : Fin 9) then .exc .timeoutError
        else .val (JVal.obj [("Id", .str "abc")]))) 4
      = JVal.arr [] :=
  ⟨(C2_single_failure_isolated 4 .timeoutError
      (fun _ => JVal.obj [("Id", .str "abc")])).1 0 (by decide),
   (C2_single_failure_isolated 4 .timeoutError
      (fun _ => JVal.obj [("Id", .str "abc")])).2⟩

/-- C3: when the composite operation itself raises an API-level error,
the coordinator refresh keeps the previously stored snapshot unchanged
and sets the success flag false; `coordinatorRefresh` is a total
function, so no exception reaches the views. -/
theorem C3_failed_cycle_keeps_snapshot (st : CoordinatorState) (e : EmbyError) :
    (coordinatorRefresh st (.error e)).data = st.data ∧
    (coordinatorRefresh st (.error e)).lastUpdateSuccess = false :=
  ⟨rfl, rfl⟩

/-- C4: for a concrete (non-empty, non-"all") filter the match predicate
returns true exactly when the session's `DeviceId` equals the filter or
the string form of its `InternalDeviceId` equals the filter; a filter of
`None`, `""` or the literal `"all"` matches every session; and the inline
match of `EmbyMediaPlayer._update_session_data` agrees with the predicate
on every concrete filter. -/
theorem C4_device_filter_matching :
    (∀ (f : String) (s : Session), f ≠ "" → f ≠ "all" →
      (shouldIncludeSession (some f) s = true ↔
        (s.DeviceId = some f ∨ strOfInternal s = f))) ∧
    (∀ s : Session,
      shouldIncludeSession none s = true ∧
      shouldIncludeSession (some "") s = true ∧
      shouldIncludeSession (some "all") s = true) ∧
    (∀ (f : String) (s : Session), f ≠ "" → f ≠ "all" →
      mediaPlayerSessionMatches f s = shouldIncludeSession (some f) s) := by
  refine ⟨?_, ?_, ?_⟩
  · intro f s h1 h2
    simp [shouldIncludeSession, h1, h2]
  · intro s
    refine ⟨rfl, ?_, ?_⟩ <;> simp [shouldIncludeSession]
  · intro f s h1 h2
    simp [shouldIncludeSession, mediaPlayerSessionMatches, h1, h2]

/-- C4 witness: a session whose `DeviceId` is "dev1" matches the filter
"dev1"; a session with a different `DeviceId` but internal id 7 matches
the filter "7"; the wildcard "all" matches a non-matching session. -/
theorem C4_witness :
    shouldIncludeSession (some "dev1")
      ⟨some "dev1", none, none, none, none, none, none⟩ = true ∧
    shouldIncludeSession (some "7")
      ⟨some "other", some 7, none, none, none, none, none⟩ = true ∧
    shouldIncludeSession (some "all")
      ⟨some "other", none, none, none, none, none, none⟩ = true :=
  ⟨(C4_device_filter_matching.1 "dev1" _ (by decide) (by decide)).mpr
      (Or.inl rfl),
   (C4_device_filter_matching.1 "7" _ (by decide) (by decide)).mpr
      (Or.inr rfl),
   (C4_device_filter_matching.2.1 _).2.2⟩

/-- C5 counterexample: the claim asserts the progress percentage equals
`floor(positionTicks / runtimeTicks * 100)` for all non-negative integer
ticks, but CPython computes `int((p / r) * 100)` in binary64 doubles: at
`PositionTicks=29000000000`, `RunTimeTicks=100000000000` the exact
quotient 0.29 rounds down to the nearest double, the multiplication by
100 yields 28.999999999999996, and `int` truncates to 28 while the exact
floor is 29. -/
theorem C5_counterexample :
    progressPercent 29000000000 100000000000 = 28 ∧
    ⌊(100 * ((29000000000 : ℕ) : ℚ)) / ((100000000000 : ℕ) : ℚ)⌋ = 29 := by
  constructor
  · rw [progressPercent, if_pos (by norm_num)]
    have hx : ((29000000000 : ℕ) : ℚ) / ((100000000000 : ℕ) : ℚ) = (29 : ℚ) / 100 := by
      push_cast
      norm_num
    rw [hx]
    have hq1 : (0 : ℚ) < (29 : ℚ) / 100 := by norm_num
    have he1 : qexp ((29 : ℚ) / 100) = -2 := by
      apply qexp_unique hq1
      · rw [pow2z_eq_zpow]
        norm_num
      · rw [pow2z_eq_zpow]
        norm_num
    have hfl1 : fl ((29 : ℚ) / 100) = (5224175567749775 : ℚ) / 18014398509481984 := by
      rw [fl_pos_eq hq1, he1, roundAtExp]
      have hdown : rnInt ((29 : ℚ) / 100 * pow2z (52 - (-2))) = 5224175567749775 := by
        apply rnInt_eq_down
        · rw [pow2z_eq_zpow]
          push_cast
          norm_num
        · rw [pow2z_eq_zpow]
          push_cast
          norm_num
      rw [hdown, pow2z_eq_zpow]
      push_cast
      norm_num
    rw [hfl1]
    have hq2 : (0 : ℚ) < (5224175567749775 : ℚ) / 18014398509481984 * 100 := by norm_num
    have he2 : qexp ((5224175567749775 : ℚ) / 18014398509481984 * 100) = 4 := by
      apply qexp_unique hq2
      · rw [pow2z_eq_zpow]
        norm_num
      · rw [pow2z_eq_zpow]
        norm_num
    have hfl2 : fl ((5224175567749775 : ℚ) / 18014398509481984 * 100)
        = (8162774324609023 : ℚ) / 281474976710656 := by
      rw [fl_pos_eq hq2, he2, roundAtExp]
      have hdown : rnInt ((5224175567749775 : ℚ) / 18014398509481984 * 100 * pow2z (52 - 4))
          = 8162774324609023 := by
        apply rnInt_eq_down
        · rw [pow2z_eq_zpow]
          push_cast
          norm_num
        · rw [pow2z_eq_zpow]
          push_cast
          norm_num
      rw [hdown, pow2z_eq_zpow]
      push_cast
      norm_num
    rw [hfl2, pyTrunc_eq_floor (by norm_num)]
    apply Int.floor_eq_iff.mpr
    constructor
    · norm_num
    · norm_num
  · have hval : (100 * ((29000000000 : ℕ) : ℚ)) / ((100000000000 : ℕ) : ℚ) = 29 := by
      push_cast
      norm_num
    rw [hval]
    apply Int.floor_eq_iff.mpr
    constructor
    · norm_num
    · norm_num

/-- C5 (amended): the progress computation is total — when
`runtimeTicks = 0` the guard skips the division and the result is
defined as 0, never a division error; for `runtimeTicks > 0` and
`positionTicks ≤ runtimeTicks` the computed value is within one of
`⌊positionTicks / runtimeTicks * 100⌋` (the two binary64 roundings can
shift the truncation by one when `100 * p / r` lies within a few units
in the last place of an integer, as in the counterexample, but no
further); and the spec's scenario `PositionTicks=150000000`,
`RunTimeTicks=600000000` yields exactly 25 (both roundings are exact
there). -/
theorem C5_progress_percent (p r : Nat) :
    (r = 0 → progressPercent p r = 0) ∧
    (0 < r → p ≤ r →
      ⌊(100 * (p : ℚ)) / (r : ℚ)⌋ - 1 ≤ progressPercent p r ∧
      progressPercent p r ≤ ⌊(100 * (p : ℚ)) / (r : ℚ)⌋ + 1) ∧
    progressPercent 150000000 600000000 = 25 := by
  refine ⟨?_, ?_, ?_⟩
  · intro hr
    rw [progressPercent, if_neg (by omega)]
  · intro hr hpr
    rcases Nat.eq_zero_or_pos p with hp | hp
    · subst hp
      rw [progressPercent, if_pos hr]
      have h0 : ((0 : ℕ) : ℚ) / (r : ℚ) = 0 := by
        push_cast
        ring
      have h00 : (0 : ℚ) * 100 = 0 := by ring
      rw [h0, fl_zero, h00, fl_zero]
      have hz : pyTrunc 0 = 0 := by
        rw [pyTrunc_eq_floor le_rfl]
        exact Int.floor_zero
      rw [hz]
      have hv0 : (100 * ((0 : ℕ) : ℚ)) / (r : ℚ) = 0 := by
        push_cast
        ring
      rw [hv0, Int.floor_zero]
      omega
    · rw [progressPercent, if_pos hr]
      have hrQ : (0 : ℚ) < (r : ℚ) := by exact_mod_cast hr
      have hx : (0 : ℚ) < (p : ℚ) / (r : ℚ) := div_pos (by exact_mod_cast hp) hrQ
      have hx1 : (p : ℚ) / (r : ℚ) ≤ 1 := (div_le_one hrQ).mpr (by exact_mod_cast hpr)
      have hu : pow2z (-53) = 1 / 9007199254740992 := by
        rw [pow2z_eq_zpow]
        norm_num
      have hy := abs_fl_sub_le_rel hx
      rw [hu] at hy
      obtain ⟨hy1, hy2⟩ := abs_le.mp hy
      have hy0 : 0 < fl ((p : ℚ) / (r : ℚ)) := by linarith
      have hw0 : 0 < fl ((p : ℚ) / (r : ℚ)) * 100 := by linarith
      have hz := abs_fl_sub_le_rel hw0
      rw [hu] at hz
      obtain ⟨hz1, hz2⟩ := abs_le.mp hz
      have hz0 : 0 ≤ fl (fl ((p : ℚ) / (r : ℚ)) * 100) := fl_nonneg hw0.le
      have hvx : (100 * (p : ℚ)) / (r : ℚ) = 100 * ((p : ℚ) / (r : ℚ)) := by ring
      have hsand1 : (100 * (p : ℚ)) / (r : ℚ) - 1 / 2 < fl (fl ((p : ℚ) / (r : ℚ)) * 100) := by
        rw [hvx]
        nlinarith
      have hsand2 : fl (fl ((p : ℚ) / (r : ℚ)) * 100) < (100 * (p : ℚ)) / (r : ℚ) + 1 / 2 := by
        rw [hvx]
        nlinarith
      constructor
      · rw [pyTrunc_eq_floor hz0]
        apply Int.le_floor.mpr
        push_cast
        have hfle := Int.floor_le ((100 * (p : ℚ)) / (r : ℚ))
        linarith
      · rw [pyTrunc_eq_floor hz0]
        have hlt : ⌊fl (fl ((p : ℚ) / (r : ℚ)) * 100)⌋ < ⌊(100 * (p : ℚ)) / (r : ℚ)⌋ + 2 := by
          apply Int.floor_lt.mpr
          push_cast
          have hfl1 := Int.lt_floor_add_one ((100 * (p : ℚ)) / (r : ℚ))
          linarith
        omega
  · rw [progressPercent, if_pos (by norm_num)]
    have hx : ((150000000 : ℕ) : ℚ) / ((600000000 : ℕ) : ℚ) = (1 : ℚ) / 4 := by
      push_cast
      norm_num
    rw [hx]
    have hq1 : (0 : ℚ) < (1 : ℚ) / 4 := by norm_num
    have he1 : qexp ((1 : ℚ) / 4) = -2 := by
      apply qexp_unique hq1
      · rw [pow2z_eq_zpow]
        norm_num
      · rw [pow2z_eq_zpow]
        norm_num
    have hfl1 : fl ((1 : ℚ) / 4) = (1 : ℚ) / 4 := by
      rw [fl_pos_eq hq1, he1]
      apply roundAtExp_exact 4503599627370496
      rw [pow2z_eq_zpow]
      push_cast
      norm_num
    rw [hfl1]
    have hw : (1 : ℚ) / 4 * 100 = 25 := by norm_num
    rw [hw]
    have hq2 : (0 : ℚ) < (25 : ℚ) := by norm_num
    have he2 : qexp (25 : ℚ) = 4 := by
      apply qexp_unique hq2
      · rw [pow2z_eq_zpow]
        norm_num
      · rw [pow2z_eq_zpow]
        norm_num
    have hfl2 : fl (25 : ℚ) = 25 := by
      rw [fl_pos_eq hq2, he2]
      apply roundAtExp_exact 7036874417766400
      rw [pow2z_eq_zpow]
      push_cast
      norm_num
    rw [hfl2, pyTrunc_eq_floor (by norm_num)]
    apply Int.floor_eq_iff.mpr
    constructor
    · norm_num
    · norm_num

/-- C5 witness: the zero-runtime hypothesis and the bounded-deviation
hypotheses of the amended theorem discharged at the scenario-C ticks. -/
theorem C5_witness :
    progressPercent 150000000 0 = 0 ∧
    ⌊(100 * ((150000000 : ℕ) : ℚ)) / ((600000000 : ℕ) : ℚ)⌋ - 1
        ≤ progressPercent 150000000 600000000 ∧
    progressPercent 150000000 600000000
        ≤ ⌊(100 * ((150000000 : ℕ) : ℚ)) / ((600000000 : ℕ) : ℚ)⌋ + 1 :=
  ⟨(C5_progress_percent 150000000 0).1 rfl,
   ((C5_progress_percent 150000000 600000000).2.1 (by norm_num) (by norm_num)).1,
   ((C5_progress_percent 150000000 600000000).2.1 (by norm_num) (by norm_num)).2⟩

/-- C6 counterexample: the claim asserts `int(t / 10000000)` is exact
floor division for every non-negative tick value, but the binary64
quotient deviates once ticks exceed 2^53: at `t = 19999999999999999` the
exact quotient 1999999999.9999999 rounds to the double 2000000000.0
(the unit in the last place there is about 2.4e-7, larger than the 1e-7
gap), so CPython returns 2000000000 while floor division gives
1999999999. -/
theorem C6_counterexample :
    ticksToSeconds 19999999999999999 = 2000000000 ∧
    (19999999999999999 : ℕ) / 10000000 = 1999999999 := by
  constructor
  · rw [ticksToSeconds]
    have hx : ((19999999999999999 : ℕ) : ℚ) / 10000000
        = (19999999999999999 : ℚ) / 10000000 := by
      push_cast
      ring
    rw [hx]
    have hq : (0 : ℚ) < (19999999999999999 : ℚ) / 10000000 := by norm_num
    have he : qexp ((19999999999999999 : ℚ) / 10000000) = 30 := by
      apply qexp_unique hq
      · rw [pow2z_eq_zpow]
        norm_num
      · rw [pow2z_eq_zpow]
        norm_num
    have hfl : fl ((19999999999999999 : ℚ) / 10000000) = 2000000000 := by
      rw [fl_pos_eq hq, he, roundAtExp]
      have hup : rnInt ((19999999999999999 : ℚ) / 10000000 * pow2z (52 - 30))
          = 8388607999999999 + 1 := by
        apply rnInt_eq_up
        · rw [pow2z_eq_zpow]
          push_cast
          norm_num
        · rw [pow2z_eq_zpow]
          push_cast
          norm_num
      rw [hup, pow2z_eq_zpow]
      push_cast
      norm_num
    rw [hfl, pyTrunc_eq_floor (by norm_num)]
    apply Int.floor_eq_iff.mpr
    constructor
    · norm_num
    · norm_num
  · norm_num

/-- C6 (amended): the tick-to-seconds conversion equals exact floor
division by 10,000,000 for every tick value up to 2^53 (about 28.5 years
of playback, so every value the server can realistically report):
10,000,000 ticks is one second and 25,000,000 ticks is two (floor, not
round); the remaining time is the floor-converted difference whenever
the difference is at most 2^53; and scenario C gives 15 elapsed and 45
remaining seconds.  Beyond 2^53 ticks the binary64 quotient can round
across an integer and the equality fails (see the counterexample). -/
theorem C6_ticks_to_seconds (t p r : Nat) :
    (t ≤ 2 ^ 53 → ticksToSeconds t = ((t / 10000000 : ℕ) : ℤ)) ∧
    (p ≤ r → r - p ≤ 2 ^ 53 →
      remainingSeconds p r = (((r - p) / 10000000 : ℕ) : ℤ)) ∧
    ticksToSeconds 10000000 = 1 ∧
    ticksToSeconds 25000000 = 2 ∧
    ticksToSeconds 150000000 = 15 ∧
    remainingSeconds 150000000 600000000 = 45 := by
  refine ⟨?_, ?_, ?_, ?_, ?_, ?_⟩
  · intro ht
    rw [ticksToSeconds]
    exact pyTrunc_fl_div_ticks ht
  · intro hpr hle
    rw [remainingSeconds, ← Nat.cast_sub hpr]
    exact pyTrunc_fl_div_ticks hle
  · rw [ticksToSeconds, pyTrunc_fl_div_ticks (by norm_num)]
    norm_num
  · rw [ticksToSeconds, pyTrunc_fl_div_ticks (by norm_num)]
    norm_num
  · rw [ticksToSeconds, pyTrunc_fl_div_ticks (by norm_num)]
    norm_num
  · rw [remainingSeconds, ← Nat.cast_sub (by norm_num)]
    rw [pyTrunc_fl_div_ticks (by norm_num)]
    norm_num

/-- C6 witness: the bounded-range hypotheses of the amended theorem
discharged at concrete ticks (a value just below one second of ticks,
and the scenario-C remaining time). -/
theorem C6_witness :
    ticksToSeconds 19999999 = ((19999999 / 10000000 : ℕ) : ℤ) ∧
    remainingSeconds 150000000 600000000
        = (((600000000 - 150000000) / 10000000 : ℕ) : ℤ) :=
  ⟨(C6_ticks_to_seconds 19999999 0 0).1 (by norm_num),
   (C6_ticks_to_seconds 0 150000000 600000000).2.1 (by norm_num) (by norm_num)⟩

/-- C7: `test_connection` returns false on every raised failure kind (the
blanket `except Exception` catches them all and nothing propagates —
`test_connection` is a total function of the network event); on a mapping
response it returns true exactly when the mapping has a `"ServerName"`
key; and on the 404 `None` result it returns false. -/
theorem C7_test_connection (e : NetEvent) :
    (∀ err, requestOutcome e = .error err → test_connection e = false) ∧
    (∀ fields, requestOutcome e = .ok (.obj fields) →
      (test_connection e = true ↔
        fields.any (fun f => f.1 == "ServerName") = true)) ∧
    (requestOutcome e = .ok .null → test_connection e = false) := by
  refine ⟨?_, ?_, ?_⟩
  · intro err h
    simp [test_connection, h]
  · intro fields h
    simp [test_connection, h, pyMember]
  · intro h
    simp [test_connection, h]

/-- C7 witness (the spec's scenario B): a 200 response with
`{"ServerName": "Home", "Id": "abc"}` yields true; a 401 response (which
`_request` raises as `EmbyAuthError`) yields false. -/
theorem C7_witness :
    test_connection (.ok 200 (.obj [("ServerName", .str "Home"), ("Id", .str "abc")]))
      = true ∧
    test_connection (.ok 401 (.obj [])) = false :=
  ⟨((C7_test_connection
        (.ok 200 (.obj [("ServerName", .str "Home"), ("Id", .str "abc")]))).2.1
      [("ServerName", .str "Home"), ("Id", .str "abc")] rfl).mpr rfl,
   (C7_test_connection (.ok 401 (.obj []))).1 .authError rfl⟩

/-- C8: the single-request outcome classification — 401 raises the auth
failure, 404 returns `None` without raising, a timeout raises the timeout
failure, a transport-level client error (including the error
`raise_for_status` turns any other `>= 400` status into) raises the
connection failure, any other unexpected error raises the base API
failure; and for events whose successful bodies are never `None` (the
spec types them as mappings or sequences) the request returns `None`
exactly when the remote reports 404. -/
theorem C8_request_classification (b : JVal) (status : Nat) :
    requestOutcome (.ok 401 b) = .error .authError ∧
    requestOutcome (.ok 404 b) = .ok .null ∧
    requestOutcome .timeoutErr = .error .timeoutError ∧
    requestOutcome .clientErr = .error .connectionError ∧
    requestOutcome .otherErr = .error .apiError ∧
    (status ≠ 401 → status ≠ 404 → 400 ≤ status →
      requestOutcome (.ok status b) = .error .connectionError) ∧
    (status < 400 → requestOutcome (.ok status b) = .ok b) ∧
    (∀ e : NetEvent, (∀ s b2, e = .ok s b2 → b2 ≠ .null) →
      (requestOutcome e = .ok .null ↔ ∃ b2, e = .ok 404 b2)) := by
  refine ⟨rfl, rfl, rfl, rfl, rfl, ?_, ?_, ?_⟩
  · intro h1 h2 h3
    simp [requestOutcome, h1, h2, h3]
  · intro h
    have h1 : status ≠ 401 := by omega
    have h2 : status ≠ 404 := by omega
    have h3 : ¬ (400 ≤ status) := by omega
    simp [requestOutcome, h1, h2, h3]
  · intro e hb
    constructor
    · intro h
      cases e with
      | ok s b2 =>
          by_cases hs1 : s = 401
          · subst hs1; simp [requestOutcome] at h
          · by_cases hs2 : s = 404
            · subst hs2; exact ⟨b2, rfl⟩
            · by_cases hs3 : 400 ≤ s
              · simp [requestOutcome, hs1, hs2, hs3] at h
              · simp [requestOutcome, hs1, hs2, hs3] at h
                exact absurd h (hb s b2 rfl)
      | timeoutErr => simp [requestOutcome] at h
      | clientErr => simp [requestOutcome] at h
      | otherErr => simp [requestOutcome] at h
    · rintro ⟨b2, rfl⟩
      rfl

/-- C8 witness: a 500 status becomes the connection failure, a 200 status
returns the body, and the exactness of the 404 sentinel holds for a
concrete 404 event with a mapping body. -/
theorem C8_witness :
    requestOutcome (.ok 500 (JVal.obj [])) = .error .connectionError ∧
    requestOutcome (.ok 200 (JVal.obj [])) = .ok (JVal.obj []) ∧
    (requestOutcome (.ok 404 (JVal.obj [])) = .ok .null ↔
      ∃ b2, NetEvent.ok 404 (JVal.obj []) = .ok 404 b2) :=
  ⟨(C8_request_classification (JVal.obj []) 500).2.2.2.2.2.1
      (by decide) (by decide) (by decide),
   (C8_request_classification (JVal.obj []) 200).2.2.2.2.2.2.1 (by decide),
   (C8_request_classification (JVal.obj []) 200).2.2.2.2.2.2.2
      (.ok 404 (JVal.obj []))
      (by intro s b2 h; cases h; intro hc; cases hc)⟩

/-- C9 counterexample: the claim's biconditional does not hold for every
view — with no snapshot stored and the success flag false, the online
binary sensor still reports available (its override returns `True`
unconditionally), and with the flag true but no data stored the media
player reports available although no snapshot exists. -/
theorem C9_counterexample :
    onlineBinarySensorAvailable ⟨none, false⟩ = true ∧
    mediaPlayerAvailable ⟨none, true⟩ = true ∧
    ((⟨none, false⟩ : CoordinatorState).lastUpdateSuccess &&
      (⟨none, false⟩ : CoordinatorState).data.isSome) = false ∧
    ((⟨none, true⟩ : CoordinatorState).lastUpdateSuccess &&
      (⟨none, true⟩ : CoordinatorState).data.isSome) = false :=
  ⟨rfl, rfl, rfl, rfl⟩

/-- C9 (amended): the sensor base, device-sensor base and binary-sensor
base classes expose exactly the claimed conjunction (success flag true
AND a snapshot stored); the online binary sensor overrides availability
to be unconditionally true, and the media player's availability is the
success flag alone, without the data-non-null conjunct. -/
theorem C9_availability (c : CoordinatorState) :
    sensorBaseAvailable c = (c.lastUpdateSuccess && c.data.isSome) ∧
    deviceSensorBaseAvailable c = (c.lastUpdateSuccess && c.data.isSome) ∧
    binarySensorBaseAvailable c = (c.lastUpdateSuccess && c.data.isSome) ∧
    onlineBinarySensorAvailable c = true ∧
    mediaPlayerAvailable c = c.lastUpdateSuccess :=
  ⟨rfl, rfl, rfl, rfl, rfl⟩

/-- C10: when a coordinator update delivers sessions none of which match
the entity's device, `_update_session_data` only clears the matched
session: the three cached identity fields keep their previous values, the
entity name is computed from those (previous) cached values, and the
reported state is idle; the initial cache is the configured user name,
device name and `"Unknown"`; and in every update the cached fields are
either left unchanged or overwritten from the first matching session's
`UserName`/`DeviceName`/`Client` keys (defaulting to the previous cached
value when the key is absent). -/
theorem C10_cache_frame :
    (∀ (dId uN dN : String) (st : PlayerCache) (sessions : List Session),
      (∀ s ∈ sessions, mediaPlayerSessionMatches dId s = false) →
      updateSessionData dId (some sessions) st = { st with sessionData := none } ∧
      playerName uN dN (updateSessionData dId (some sessions) st) =
        "Emby " ++ pyOrStr st.cachedUser uN ++ " - " ++ pyOrStr st.cachedDevice dN ∧
      mediaPlayerState (updateSessionData dId (some sessions) st) = .idle) ∧
    (∀ uN dN : String, initialCache uN dN =
      { cachedUser := uN, cachedDevice := dN, cachedClient := "Unknown",
        sessionData := none }) ∧
    (∀ (dId : String) (data : Option (List Session)) (st : PlayerCache),
      ((updateSessionData dId data st).cachedUser = st.cachedUser ∧
       (updateSessionData dId data st).cachedDevice = st.cachedDevice ∧
       (updateSessionData dId data st).cachedClient = st.cachedClient) ∨
      (∃ sessions s, data = some sessions ∧
        findMatchingSession dId sessions = some s ∧
        mediaPlayerSessionMatches dId s = true ∧
        (updateSessionData dId data st).cachedUser = s.UserName.getD st.cachedUser ∧
        (updateSessionData dId data st).cachedDevice = s.DeviceName.getD st.cachedDevice ∧
        (updateSessionData dId data st).cachedClient = s.Client.getD st.cachedClient)) := by
  refine ⟨?_, fun uN dN => rfl, ?_⟩
  · intro dId uN dN st sessions h
    have hfind := findMatchingSession_eq_none h
    refine ⟨?_, ?_, ?_⟩ <;> simp [updateSessionData, hfind, playerName, mediaPlayerState]
  · intro dId data st
    cases data with
    | none => exact Or.inl ⟨rfl, rfl, rfl⟩
    | some sessions =>
        cases hfind : findMatchingSession dId sessions with
        | none => exact Or.inl (by simp [updateSessionData, hfind])
        | some s =>
            refine Or.inr ⟨sessions, s, rfl, hfind,
              findMatchingSession_matches hfind, ?_, ?_, ?_⟩ <;>
              simp [updateSessionData, hfind]

/-- C10 witness: with one session belonging to a different device, the
update leaves the freshly initialized cache unchanged, reports idle, and
keeps the name computed from the configured identity. -/
theorem C10_witness :
    updateSessionData "dev1"
      (some [⟨some "other", some 7, some "alice", none, none, none, none⟩])
      (initialCache "u" "d")
      = { cachedUser := "u", cachedDevice := "d", cachedClient := "Unknown",
          sessionData := none } ∧
    mediaPlayerState (updateSessionData "dev1"
      (some [⟨some "other", some 7, some "alice", none, none, none, none⟩])
      (initialCache "u" "d")) = .idle :=
  ⟨((C10_cache_frame.1 "dev1" "u" "d" (initialCache "u" "d")
      [⟨some "other", some 7, some "alice", none, none, none, none⟩]
      (by intro s hs; simp at hs; subst hs; decide)).1),
   ((C10_cache_frame.1 "dev1" "u" "d" (initialCache "u" "d")
      [⟨some "other", some 7, some "alice", none, none, none, none⟩]
      (by intro s hs; simp at hs; subst hs; decide)).2.2)⟩

end EmbyHA
